import Mathlib

/-!
Verification of the LLM-List JS SDK registry accessor.

The repository ships two variants of the `LLMRegistry` class:

* `src/index.js` — the plain Node variant.  Its accessors dereference
  `this.registry` unconditionally (a documentless handle raises a
  TypeError), and its static `fetch` performs no HTTP status check.
* `src/unnamed/part_000` — the universal (Node + browser) variant.  Its
  accessors guard `this.registry` first, and its `fetch` rejects on a
  non-200 status before parsing the body.

Both variants are embedded below over one shared data model.  Functions
without a suffix embed `src/index.js`; functions with the `Guarded`
suffix embed `src/unnamed/part_000`.  JavaScript `undefined`/`null`
fields become `Option`, a thrown exception becomes `Except.error`, and
`JSON.parse` is abstracted as an oracle `parseJson : String → Option
RegistryDocument` (`none` models a parse failure).
-/

/-- A model entry of the registry (`id` and `name` are the interpreted
fields; further fields are passthrough and irrelevant to the accessors). -/
structure Model where
  id : String
  name : String
  deriving Repr, DecidableEq

/-- The opaque `auth` sub-object of a provider's `api_config`; its contents
are passed through untouched, so we model it as an opaque field list.
As a JavaScript object it is always truthy. -/
structure Auth where
  fields : List (String × String)
  deriving Repr, DecidableEq

/-- The optional `api_config` object of a provider, holding an optional
nested `auth` object. -/
structure ApiConfig where
  auth : Option Auth
  deriving Repr, DecidableEq

/-- A provider entry: `id` is the lookup key; `website`, `models` and
`api_config` may be absent in the source JSON. -/
structure Provider where
  id : String
  website : Option String
  models : Option (List Model)
  api_config : Option ApiConfig
  deriving Repr, DecidableEq

/-- The top-level registry document: an ordered sequence of providers. -/
structure RegistryDocument where
  providers : List Provider
  deriving Repr, DecidableEq

/-- The SDK handle: `this.registry` is either a loaded document or null
(the documentless state). -/
structure LLMRegistry where
  registry : Option RegistryDocument
  deriving Repr, DecidableEq

/-- Failures surfaced by the accessors: `typeError` models the TypeError
raised when the unguarded variant dereferences a null `this.registry`;
`providerNotFound` models the thrown
`Provider with ID '...' not found.` error. -/
inductive AccessErr where
  | typeError : AccessErr
  | providerNotFound : String → AccessErr
  deriving Repr, DecidableEq

/-- Failures surfaced by the static `fetch`: connection failure, non-success
HTTP status, and JSON parse failure. -/
inductive FetchErr where
  | network : String → FetchErr
  | httpStatus : Nat → FetchErr
  | parse : FetchErr
  deriving Repr, DecidableEq

/-- The outcome of the HTTP GET underlying `fetch`: either a connection
error or a response carrying a status code and a body string. -/
inductive HttpResult where
  | connError : String → HttpResult
  | response : Nat → String → HttpResult
  deriving Repr, DecidableEq

/-- The constructor of both variants:
`this.registry = data || localRegistry`, followed by a console warning
when the result is null.  Returns the handle together with the warning
flag (`true` when the warning was emitted).  A document object is always
truthy, so `data || localRegistry` is `Option` fallback. -/
def LLMRegistry.construct (data localReg : Option RegistryDocument) :
    LLMRegistry × Bool :=
  match data with
  | some d => ({ registry := some d }, false)
  | none =>
    match localReg with
    | some l => ({ registry := some l }, false)
    | none => ({ registry := none }, true)

/-- The provider lookup shared verbatim by all id-keyed accessors of both
variants: `this.registry.providers.find(p => p.id === providerId)`. -/
def findProvider (d : RegistryDocument) (providerId : String) : Option Provider :=
  d.providers.find? (fun p => p.id == providerId)

/-- `getProviders` of `src/index.js`: `return this.registry.providers;`
with no guard, so a documentless handle raises a TypeError. -/
def LLMRegistry.getProviders (h : LLMRegistry) :
    Except AccessErr (List Provider) :=
  match h.registry with
  | none => .error .typeError
  | some d => .ok d.providers

/-- `getProviders` of `src/unnamed/part_000`:
`return this.registry && this.registry.providers ? this.registry.providers : [];`
(an array, even empty, is truthy, so a loaded document always yields its
provider list). -/
def LLMRegistry.getProvidersGuarded (h : LLMRegistry) : List Provider :=
  match h.registry with
  | none => []
  | some d => d.providers

/-- `getProviderModels` of `src/index.js`: find by id, throw when absent,
otherwise `return provider.models || [];`. -/
def LLMRegistry.getProviderModels (h : LLMRegistry) (providerId : String) :
    Except AccessErr (List Model) :=
  match h.registry with
  | none => .error .typeError
  | some d =>
    match findProvider d providerId with
    | none => .error (.providerNotFound providerId)
    | some p => .ok (p.models.getD [])

/-- `getProviderModels` of `src/unnamed/part_000`: identical except for the
leading `if (!this.registry) return [];` guard. -/
def LLMRegistry.getProviderModelsGuarded (h : LLMRegistry) (providerId : String) :
    Except AccessErr (List Model) :=
  match h.registry with
  | none => .ok []
  | some d =>
    match findProvider d providerId with
    | none => .error (.providerNotFound providerId)
    | some p => .ok (p.models.getD [])

/-- `getProviderWebsite` of `src/index.js`: find by id, throw when absent,
otherwise `return provider.website;` (which may be undefined). -/
def LLMRegistry.getProviderWebsite (h : LLMRegistry) (providerId : String) :
    Except AccessErr (Option String) :=
  match h.registry with
  | none => .error .typeError
  | some d =>
    match findProvider d providerId with
    | none => .error (.providerNotFound providerId)
    | some p => .ok p.website

/-- `getProviderWebsite` of `src/unnamed/part_000`: identical except for the
leading `if (!this.registry) return null;` guard. -/
def LLMRegistry.getProviderWebsiteGuarded (h : LLMRegistry) (providerId : String) :
    Except AccessErr (Option String) :=
  match h.registry with
  | none => .ok none
  | some d =>
    match findProvider d providerId with
    | none => .error (.providerNotFound providerId)
    | some p => .ok p.website

/-- `getProviderAuth` of `src/index.js`: find by id, throw when absent,
otherwise `return provider.api_config && provider.api_config.auth ?
provider.api_config.auth : null;` (objects are truthy, so this is `none`
exactly when `api_config` or its nested `auth` is absent). -/
def LLMRegistry.getProviderAuth (h : LLMRegistry) (providerId : String) :
    Except AccessErr (Option Auth) :=
  match h.registry with
  | none => .error .typeError
  | some d =>
    match findProvider d providerId with
    | none => .error (.providerNotFound providerId)
    | some p =>
      .ok (match p.api_config with
        | none => none
        | some cfg =>
          match cfg.auth with
          | none => none
          | some a => some a)

/-- `getProviderAuth` of `src/unnamed/part_000`: identical except for the
leading `if (!this.registry) return null;` guard. -/
def LLMRegistry.getProviderAuthGuarded (h : LLMRegistry) (providerId : String) :
    Except AccessErr (Option Auth) :=
  match h.registry with
  | none => .ok none
  | some d =>
    match findProvider d providerId with
    | none => .error (.providerNotFound providerId)
    | some p =>
      .ok (match p.api_config with
        | none => none
        | some cfg =>
          match cfg.auth with
          | none => none
          | some a => some a)

/-- Static `fetch` of `src/index.js`: on connection error reject with
`Failed to fetch registry`; otherwise accumulate the body and on `end`
parse it, resolving `new LLMRegistry(json)` on success and rejecting with
`Failed to parse registry JSON` on failure.  Note: this variant performs
NO status-code check on the response. -/
def LLMRegistry.fetch (parseJson : String → Option RegistryDocument)
    (localReg : Option RegistryDocument) (r : HttpResult) :
    Except FetchErr LLMRegistry :=
  match r with
  | .connError m => .error (.network m)
  | .response _ body =>
    match parseJson body with
    | none => .error .parse
    | some j => .ok (LLMRegistry.construct (some j) localReg).1

/-- Static `fetch` of `src/unnamed/part_000`, https fallback path: reject
with an HTTP error when `res.statusCode !== 200`, then parse the body,
resolving `new LLMRegistry(json)` on success and rejecting with a parse
error on failure. -/
def LLMRegistry.fetchGuarded (parseJson : String → Option RegistryDocument)
    (localReg : Option RegistryDocument) (r : HttpResult) :
    Except FetchErr LLMRegistry :=
  match r with
  | .connError m => .error (.network m)
  | .response status body =>
    if status ≠ 200 then .error (.httpStatus status)
    else
      match parseJson body with
      | none => .error .parse
      | some j => .ok (LLMRegistry.construct (some j) localReg).1

/-- The caller-side replacement step `registry = await LLMRegistry.fetch(url)`
for the `src/index.js` variant: on resolution the new handle replaces the
previous one; on rejection the previous handle stays in place. -/
def fetchUpdate (prev : LLMRegistry) (parseJson : String → Option RegistryDocument)
    (localReg : Option RegistryDocument) (r : HttpResult) :
    LLMRegistry × Option FetchErr :=
  match LLMRegistry.fetch parseJson localReg r with
  | .ok h => (h, none)
  | .error e => (prev, some e)

/-- The caller-side replacement step for the `src/unnamed/part_000` variant. -/
def fetchUpdateGuarded (prev : LLMRegistry)
    (parseJson : String → Option RegistryDocument)
    (localReg : Option RegistryDocument) (r : HttpResult) :
    LLMRegistry × Option FetchErr :=
  match LLMRegistry.fetchGuarded parseJson localReg r with
  | .ok h => (h, none)
  | .error e => (prev, some e)

/-- One accessor invocation, for reasoning about sequences of calls. -/
inductive AccessorCall where
  | providers : AccessorCall
  | models : String → AccessorCall
  | website : String → AccessorCall
  | auth : String → AccessorCall
  deriving Repr, DecidableEq

/-- The value an accessor invocation produces. -/
inductive CallOutcome where
  | providerSeq : Except AccessErr (List Provider) → CallOutcome
  | modelSeq : Except AccessErr (List Model) → CallOutcome
  | websiteVal : Except AccessErr (Option String) → CallOutcome
  | authVal : Except AccessErr (Option Auth) → CallOutcome
  deriving Repr

/-- Execute one accessor call against a handle, returning its outcome and
the handle afterwards.  The method bodies in both source variants contain
no assignment to `this.registry` or to the document, so the state after
the call is the state before it. -/
def execCall (h : LLMRegistry) (c : AccessorCall) : CallOutcome × LLMRegistry :=
  match c with
  | .providers => (.providerSeq (h.getProviders), h)
  | .models i => (.modelSeq (h.getProviderModels i), h)
  | .website i => (.websiteVal (h.getProviderWebsite i), h)
  | .auth i => (.authVal (h.getProviderAuth i), h)

/-- Execute a sequence of accessor calls, threading the handle state. -/
def execCalls (h : LLMRegistry) (cs : List AccessorCall) : LLMRegistry :=
  match cs with
  | [] => h
  | c :: rest => execCalls (execCall h c).2 rest

/-- The spec scenario document
`{"providers":[{"id":"openai","website":"https://openai.com","models":[{"id":"gpt-4","name":"GPT-4"}]}]}`. -/
def openaiProvider : Provider :=
  { id := "openai"
    website := some "https://openai.com"
    models := some [{ id := "gpt-4", name := "GPT-4" }]
    api_config := none }

/-- The one-provider demonstration document from the spec scenario. -/
def demoDoc : RegistryDocument := { providers := [openaiProvider] }

/-- A concrete JSON-parse oracle used by witnesses: the body
`\x7b"providers":[]\x7d` parses to the empty-provider document, everything
else fails to parse (as `JSON.parse` does on the bodies used below). -/
def demoParse (s : String) : Option RegistryDocument :=
  if s = "\x7b\"providers\":[]\x7d" then some { providers := [] } else none

/-- Helper: `Array.prototype.find` semantics — the scan over
`pre ++ p :: post` returns `p` when every element of `pre` fails the id
test and `p` passes it. -/
theorem find_first_match (pre post : List Provider) (p : Provider)
    (providerId : String) (hid : (p.id == providerId) = true)
    (hpre : ∀ q ∈ pre, (q.id == providerId) = false) :
    (pre ++ p :: post).find? (fun q => q.id == providerId) = some p := by
  induction pre with
  | nil => simp [List.find?, hid]
  | cons a t ih =>
    have ha : (a.id == providerId) = false := hpre a (by simp)
    simp only [List.cons_append, List.find?, ha]
    exact ih (fun q hq => hpre q (by simp [hq]))

/-- Helper: when no provider of the document carries the id, the lookup
yields nothing. -/
theorem findProvider_eq_none (d : RegistryDocument) (providerId : String)
    (h : ∀ q ∈ d.providers, q.id ≠ providerId) :
    findProvider d providerId = none := by
  rw [findProvider, List.find?_eq_none]
  intro q hq
  simpa using h q hq

/-- Claim C1 (amended): for every loaded document both variants of
`getProviders` return exactly the document's provider sequence; in the
documentless state the guarded variant returns the empty sequence, while
the plain Node variant raises a TypeError instead of returning. -/
theorem C1_listProviders_amended (d : RegistryDocument) :
    LLMRegistry.getProviders { registry := some d } = .ok d.providers ∧
    LLMRegistry.getProvidersGuarded { registry := some d } = d.providers ∧
    LLMRegistry.getProvidersGuarded { registry := none } = ([] : List Provider) ∧
    LLMRegistry.getProviders { registry := none } = .error .typeError :=
  ⟨rfl, rfl, rfl, rfl⟩

/-- Claim C1 counterexample: the claim says a documentless handle's
`getProviders` returns an empty sequence and never an error, but the
`src/index.js` variant raises a TypeError (`this.registry` is null). -/
theorem C1_cex_documentless_raises :
    LLMRegistry.getProviders { registry := none } =
      .error .typeError := rfl

/-- Claim C7: the constructor never fails — an explicit document is used
verbatim, otherwise the locally loaded document, and when both are absent
the handle is documentless with the warning flag raised (and the warning
is not raised otherwise). -/
theorem C7_construct_total (d l : RegistryDocument)
    (localReg : Option RegistryDocument) :
    LLMRegistry.construct (some d) localReg = ({ registry := some d }, false) ∧
    LLMRegistry.construct none (some l) = ({ registry := some l }, false) ∧
    LLMRegistry.construct none none = ({ registry := none }, true) :=
  ⟨rfl, rfl, rfl⟩

/-- Claim C9: accessor calls are read-only — running any sequence of
`getProviders` / `getProviderModels` / `getProviderWebsite` /
`getProviderAuth` invocations leaves the handle, and hence the loaded
document, exactly as it was. -/
theorem C9_accessors_readonly (h : LLMRegistry) (cs : List AccessorCall) :
    execCalls h cs = h := by
  induction cs generalizing h with
  | nil => rfl
  | cons c rest ih =>
    have hc : (execCall h c).2 = h := by cases c <;> rfl
    simpa [execCalls, hc] using ih h

/-- Claim C10: in the documentless state of the guarded variant,
`getProviderModels` returns the empty sequence for every id while
`getProviderWebsite` and `getProviderAuth` return null for every id; in
particular no ProviderNotFoundError is raised, and the documentless result
shape differs between the models accessor and the website/auth accessors. -/
theorem C10_guarded_documentless (providerId : String) :
    LLMRegistry.getProviderModelsGuarded { registry := none } providerId =
      .ok [] ∧
    LLMRegistry.getProviderWebsiteGuarded { registry := none } providerId =
      .ok none ∧
    LLMRegistry.getProviderAuthGuarded { registry := none } providerId =
      .ok none :=
  ⟨rfl, rfl, rfl⟩

/-- Helper: a provider whose `website`, `models` and `api_config` are all
absent, with a one-provider document around it. -/
def bareProvider : Provider :=
  { id := "bare", website := none, models := none, api_config := none }

/-- Helper: document holding only `bareProvider`. -/
def bareDoc : RegistryDocument := { providers := [bareProvider] }

/-- Helper: the auth expression of both `getProviderAuth` variants equals
`Option.bind` over `api_config` and its nested `auth`. -/
theorem authValue_eq_bind (p : Provider) :
    (match p.api_config with
      | none => none
      | some cfg =>
        match cfg.auth with
        | none => none
        | some a => some a) = p.api_config.bind ApiConfig.auth := by
  cases p.api_config with
  | none => rfl
  | some cfg => cases ha : cfg.auth <;> simp [ha, Option.bind]

/-- Claim C2: on a loaded document, an id carried by no provider makes all
three id-keyed accessors of both variants fail with ProviderNotFoundError;
none returns null, undefined or an empty result. -/
theorem C2_absent_id_not_found (d : RegistryDocument) (providerId : String)
    (h : ∀ q ∈ d.providers, q.id ≠ providerId) :
    LLMRegistry.getProviderModels { registry := some d } providerId =
      .error (.providerNotFound providerId) ∧
    LLMRegistry.getProviderWebsite { registry := some d } providerId =
      .error (.providerNotFound providerId) ∧
    LLMRegistry.getProviderAuth { registry := some d } providerId =
      .error (.providerNotFound providerId) ∧
    LLMRegistry.getProviderModelsGuarded { registry := some d } providerId =
      .error (.providerNotFound providerId) ∧
    LLMRegistry.getProviderWebsiteGuarded { registry := some d } providerId =
      .error (.providerNotFound providerId) ∧
    LLMRegistry.getProviderAuthGuarded { registry := some d } providerId =
      .error (.providerNotFound providerId) := by
  have hf : findProvider d providerId = none := findProvider_eq_none d providerId h
  refine ⟨?_, ?_, ?_, ?_, ?_, ?_⟩ <;>
    simp [LLMRegistry.getProviderModels, LLMRegistry.getProviderWebsite,
      LLMRegistry.getProviderAuth, LLMRegistry.getProviderModelsGuarded,
      LLMRegistry.getProviderWebsiteGuarded, LLMRegistry.getProviderAuthGuarded, hf]

/-- Claim C2 witness: on the spec scenario document, the id `nonexistent`
makes all six accessors fail with ProviderNotFoundError. -/
theorem C2_witness :
    LLMRegistry.getProviderModels { registry := some demoDoc } "nonexistent" =
      .error (.providerNotFound "nonexistent") ∧
    LLMRegistry.getProviderWebsite { registry := some demoDoc } "nonexistent" =
      .error (.providerNotFound "nonexistent") ∧
    LLMRegistry.getProviderAuth { registry := some demoDoc } "nonexistent" =
      .error (.providerNotFound "nonexistent") ∧
    LLMRegistry.getProviderModelsGuarded { registry := some demoDoc }
        "nonexistent" = .error (.providerNotFound "nonexistent") ∧
    LLMRegistry.getProviderWebsiteGuarded { registry := some demoDoc }
        "nonexistent" = .error (.providerNotFound "nonexistent") ∧
    LLMRegistry.getProviderAuthGuarded { registry := some demoDoc }
        "nonexistent" = .error (.providerNotFound "nonexistent") :=
  C2_absent_id_not_found demoDoc "nonexistent" (by decide)

/-- Claim C3 counterexample: the `src/index.js` `fetch` performs no status
check, so a response with non-success status 404 and a well-formed JSON
body resolves with a document built from that response — contradicting
the claim that fetch succeeds only on a success status. -/
theorem C3_cex_nonsuccess_resolves :
    LLMRegistry.fetch demoParse none
        (HttpResult.response 404 "\x7b\"providers\":[]\x7d") =
      .ok { registry := some { providers := [] } } ∧ (404 : Nat) ≠ 200 :=
  ⟨rfl, by decide⟩

/-- Claim C3 (amended): the `src/unnamed/part_000` `fetch` (https path)
fails with a NetworkError on connection failure, an HttpStatusError on a
non-200 status, and a ParseError on a malformed body; it resolves only on
status 200 with a well-formed body.  The plain `src/index.js` variant
performs no status check and is excluded. -/
theorem C3_fetchGuarded_taxonomy
    (parseJson : String → Option RegistryDocument)
    (localReg : Option RegistryDocument) (m body : String) (status : Nat) :
    LLMRegistry.fetchGuarded parseJson localReg (.connError m) =
      .error (.network m) ∧
    (status ≠ 200 →
      LLMRegistry.fetchGuarded parseJson localReg (.response status body) =
        .error (.httpStatus status)) ∧
    (parseJson body = none →
      LLMRegistry.fetchGuarded parseJson localReg (.response 200 body) =
        .error .parse) ∧
    (∀ j, parseJson body = some j →
      LLMRegistry.fetchGuarded parseJson localReg (.response 200 body) =
        .ok { registry := some j }) := by
  refine ⟨rfl, ?_, ?_, ?_⟩
  · intro hs
    simp [LLMRegistry.fetchGuarded, hs]
  · intro hp
    simp [LLMRegistry.fetchGuarded, hp]
  · intro j hj
    simp [LLMRegistry.fetchGuarded, hj, LLMRegistry.construct]

/-- Claim C3 witness: the guarded `fetch` rejects a 404 response with an
HttpStatusError even though its body is well-formed JSON. -/
theorem C3_witness :
    LLMRegistry.fetchGuarded demoParse none
        (HttpResult.response 404 "\x7b\"providers\":[]\x7d") =
      .error (.httpStatus 404) :=
  (C3_fetchGuarded_taxonomy demoParse none ""
    "\x7b\"providers\":[]\x7d" 404).2.1 (by decide)

/-- Claim C4: a fetch whose body fails to parse rejects with a ParseError
(at any status in the plain variant, at status 200 in the guarded one),
and the previously visible handle is left exactly as it was — no partial
overwrite. -/
theorem C4_parse_failure_no_overwrite (prev : LLMRegistry)
    (parseJson : String → Option RegistryDocument)
    (localReg : Option RegistryDocument) (status : Nat) (body : String)
    (h : parseJson body = none) :
    fetchUpdate prev parseJson localReg (.response status body) =
      (prev, some .parse) ∧
    fetchUpdateGuarded prev parseJson localReg (.response 200 body) =
      (prev, some .parse) := by
  constructor
  · simp [fetchUpdate, LLMRegistry.fetch, h]
  · simp [fetchUpdateGuarded, LLMRegistry.fetchGuarded, h]

/-- Claim C4 witness: fetching the body `not json` over a handle loaded
with the spec scenario document rejects with a ParseError and leaves the
handle unchanged, in both variants. -/
theorem C4_witness :
    fetchUpdate { registry := some demoDoc } demoParse none
        (HttpResult.response 200 "not json") =
      ({ registry := some demoDoc }, some .parse) ∧
    fetchUpdateGuarded { registry := some demoDoc } demoParse none
        (HttpResult.response 200 "not json") =
      ({ registry := some demoDoc }, some .parse) :=
  C4_parse_failure_no_overwrite { registry := some demoDoc } demoParse none
    200 "not json" (by decide)

/-- Claim C5: on a loaded document, when the lookup resolves the id to a
provider, `getProviderModels` (both variants) returns exactly that
provider's `models` sequence — the empty sequence when the field is
absent — and never fails. -/
theorem C5_present_id_models (d : RegistryDocument) (providerId : String)
    (p : Provider) (hf : findProvider d providerId = some p) :
    LLMRegistry.getProviderModels { registry := some d } providerId =
      .ok (p.models.getD []) ∧
    LLMRegistry.getProviderModelsGuarded { registry := some d } providerId =
      .ok (p.models.getD []) ∧
    (p.models = none →
      LLMRegistry.getProviderModels { registry := some d } providerId =
        .ok ([] : List Model)) := by
  refine ⟨?_, ?_, ?_⟩
  · simp [LLMRegistry.getProviderModels, hf]
  · simp [LLMRegistry.getProviderModelsGuarded, hf]
  · intro hm
    simp [LLMRegistry.getProviderModels, hf, hm]

/-- Claim C5 witness: on the spec scenario document, the present id
`openai` yields exactly the one-model sequence and never fails; on the
bare document, the present id `bare` (whose `models` field is absent)
yields the empty sequence. -/
theorem C5_witness :
    (LLMRegistry.getProviderModels { registry := some demoDoc } "openai" =
        .ok (openaiProvider.models.getD []) ∧
      LLMRegistry.getProviderModelsGuarded { registry := some demoDoc }
          "openai" = .ok (openaiProvider.models.getD []) ∧
      (openaiProvider.models = none →
        LLMRegistry.getProviderModels { registry := some demoDoc } "openai" =
          .ok ([] : List Model))) ∧
    (LLMRegistry.getProviderModels { registry := some bareDoc } "bare" =
        .ok (bareProvider.models.getD []) ∧
      LLMRegistry.getProviderModelsGuarded { registry := some bareDoc }
          "bare" = .ok (bareProvider.models.getD []) ∧
      (bareProvider.models = none →
        LLMRegistry.getProviderModels { registry := some bareDoc } "bare" =
          .ok ([] : List Model))) :=
  ⟨C5_present_id_models demoDoc "openai" openaiProvider (by decide),
    C5_present_id_models bareDoc "bare" bareProvider (by decide)⟩

/-- Claim C6: on a loaded document, when the lookup resolves the id to a
provider, `getProviderWebsite` (both variants) returns exactly that
provider's `website` field — absent when the field is missing — and
`getProviderAuth` (both variants) returns the nested `api_config.auth`
object — absent when `api_config` or its nested `auth` is missing. -/
theorem C6_present_id_website_auth (d : RegistryDocument)
    (providerId : String) (p : Provider)
    (hf : findProvider d providerId = some p) :
    LLMRegistry.getProviderWebsite { registry := some d } providerId =
      .ok p.website ∧
    LLMRegistry.getProviderWebsiteGuarded { registry := some d } providerId =
      .ok p.website ∧
    LLMRegistry.getProviderAuth { registry := some d } providerId =
      .ok (p.api_config.bind ApiConfig.auth) ∧
    LLMRegistry.getProviderAuthGuarded { registry := some d } providerId =
      .ok (p.api_config.bind ApiConfig.auth) := by
  refine ⟨?_, ?_, ?_, ?_⟩
  · simp [LLMRegistry.getProviderWebsite, hf]
  · simp [LLMRegistry.getProviderWebsiteGuarded, hf]
  · simp [LLMRegistry.getProviderAuth, hf, authValue_eq_bind]
  · simp [LLMRegistry.getProviderAuthGuarded, hf, authValue_eq_bind]

/-- Claim C6 witness: on the spec scenario document, `openai` yields the
website `https://openai.com` and an absent auth configuration (it has no
`api_config`), in both variants. -/
theorem C6_witness :
    LLMRegistry.getProviderWebsite { registry := some demoDoc } "openai" =
      .ok openaiProvider.website ∧
    LLMRegistry.getProviderWebsiteGuarded { registry := some demoDoc }
        "openai" = .ok openaiProvider.website ∧
    LLMRegistry.getProviderAuth { registry := some demoDoc } "openai" =
      .ok (openaiProvider.api_config.bind ApiConfig.auth) ∧
    LLMRegistry.getProviderAuthGuarded { registry := some demoDoc }
        "openai" = .ok (openaiProvider.api_config.bind ApiConfig.auth) :=
  C6_present_id_website_auth demoDoc "openai" openaiProvider (by decide)

/-- Claim C8: the lookup shared by the id-keyed accessors is a linear scan
comparing `id` by exact string equality in which the first match wins:
with providers `pre ++ p :: post`, `p.id = providerId` and no element of
`pre` carrying the id, the scan returns `p`, and each accessor answers
from `p` — even when `post` holds further providers with the same id. -/
theorem C8_lookup_first_match (pre post : List Provider) (p : Provider)
    (providerId : String) (hid : p.id = providerId)
    (hpre : ∀ q ∈ pre, q.id ≠ providerId) :
    findProvider { providers := pre ++ p :: post } providerId = some p ∧
    LLMRegistry.getProviderModels
        { registry := some { providers := pre ++ p :: post } } providerId =
      .ok (p.models.getD []) ∧
    LLMRegistry.getProviderWebsite
        { registry := some { providers := pre ++ p :: post } } providerId =
      .ok p.website ∧
    LLMRegistry.getProviderAuth
        { registry := some { providers := pre ++ p :: post } } providerId =
      .ok (p.api_config.bind ApiConfig.auth) := by
  have hf : findProvider { providers := pre ++ p :: post } providerId = some p := by
    apply find_first_match
    · simp [hid]
    · intro q hq
      simp [hpre q hq]
  refine ⟨hf, ?_, ?_, ?_⟩
  · simp [LLMRegistry.getProviderModels, hf]
  · simp [LLMRegistry.getProviderWebsite, hf]
  · simp [LLMRegistry.getProviderAuth, hf, authValue_eq_bind]

/-- Claim C8 witness: in a document whose provider sequence holds two
providers with the duplicated id `dup` (differing websites), the lookup
and the accessors answer from the first of the two, after skipping the
non-matching provider in front. -/
theorem C8_witness :
    findProvider
        { providers := [bareProvider] ++
            { id := "dup", website := some "https://first.example",
              models := some [], api_config := none } ::
            [{ id := "dup", website := some "https://second.example",
               models := none, api_config := none }] } "dup" =
      some { id := "dup", website := some "https://first.example",
             models := some [], api_config := none } ∧
    LLMRegistry.getProviderModels
        { registry := some { providers := [bareProvider] ++
            { id := "dup", website := some "https://first.example",
              models := some [], api_config := none } ::
            [{ id := "dup", website := some "https://second.example",
               models := none, api_config := none }] } } "dup" =
      .ok (Option.getD (some []) []) ∧
    LLMRegistry.getProviderWebsite
        { registry := some { providers := [bareProvider] ++
            { id := "dup", website := some "https://first.example",
              models := some [], api_config := none } ::
            [{ id := "dup", website := some "https://second.example",
               models := none, api_config := none }] } } "dup" =
      .ok (some "https://first.example") ∧
    LLMRegistry.getProviderAuth
        { registry := some { providers := [bareProvider] ++
            { id := "dup", website := some "https://first.example",
              models := some [], api_config := none } ::
            [{ id := "dup", website := some "https://second.example",
               models := none, api_config := none }] } } "dup" =
      .ok (Option.bind none ApiConfig.auth) :=
  C8_lookup_first_match [bareProvider]
    [{ id := "dup", website := some "https://second.example",
       models := none, api_config := none }]
    { id := "dup", website := some "https://first.example",
      models := some [], api_config := none }
    "dup" (by decide) (by decide)
